import Mathlib

/-!
Shallow embedding of `cs231n/classifiers/rnn.py` (class `CaptioningRNN`).

Numpy arrays are modelled as records carrying their shape together with a total
entry function; real scalars are modelled as rationals.  The transcendental
primitives used by the network (`np.tanh`, `np.exp`, `np.log`) are not
rational-valued, so they are passed in as an explicit `NumOps` bundle of scalar
functions; no claim below depends on their values.  The layer functions
imported from `cs231n.layers` / `cs231n.rnn_layers` are not part of the
repository sources, so they are modelled from the specification (sections
4.1-4.6), as marked on each definition.
-/

/-- A 2-D real array: shape metadata plus a total entry function, mirroring a
numpy `ndarray` of rank 2.  Entries outside the shape are phantom values that
no operation reads. -/
structure Mat where
  rows : ℕ
  cols : ℕ
  entry : ℕ → ℕ → ℚ

/-- A 1-D real array (numpy rank-1 `ndarray`). -/
structure Vec where
  len : ℕ
  entry : ℕ → ℚ

/-- A 3-D real array (numpy rank-3 `ndarray`), used for (N, T, ·) batches. -/
structure Ten3 where
  dim0 : ℕ
  dim1 : ℕ
  dim2 : ℕ
  entry : ℕ → ℕ → ℕ → ℚ

/-- A 2-D integer array of token indices (numpy `int32` rank-2 array). -/
structure TMat where
  rows : ℕ
  cols : ℕ
  entry : ℕ → ℕ → ℕ

/-- A 1-D integer array of token indices. -/
structure TVec where
  len : ℕ
  entry : ℕ → ℕ

/-- A 2-D boolean array (the numpy boolean mask `captions_out != null`). -/
structure BMat where
  rows : ℕ
  cols : ℕ
  entry : ℕ → ℕ → Bool

attribute [ext] Mat Vec Ten3 TMat TVec BMat

/-- Matrix product `np.dot`: contracts over the first factor's column count. -/
def Mat.matMul (A B : Mat) : Mat :=
  ⟨A.rows, B.cols, fun i j => ∑ k ∈ Finset.range A.cols, A.entry i k * B.entry k j⟩

/-- Transpose `A.T`. -/
def Mat.transpose (A : Mat) : Mat :=
  ⟨A.cols, A.rows, fun i j => A.entry j i⟩

/-- Elementwise sum of two same-shape arrays. -/
def Mat.add (A B : Mat) : Mat :=
  ⟨A.rows, A.cols, fun i j => A.entry i j + B.entry i j⟩

/-- Broadcast addition of a row vector `A + b` (numpy row broadcasting). -/
def Mat.addRowVec (A : Mat) (b : Vec) : Mat :=
  ⟨A.rows, A.cols, fun i j => A.entry i j + b.entry j⟩

/-- Elementwise application of a scalar function. -/
def Mat.map (f : ℚ → ℚ) (A : Mat) : Mat :=
  ⟨A.rows, A.cols, fun i j => f (A.entry i j)⟩

/-- Column-wise sum over the batch axis: `np.sum(A, axis=0)`. -/
def Mat.colSum (A : Mat) : Vec :=
  ⟨A.cols, fun j => ∑ i ∈ Finset.range A.rows, A.entry i j⟩

/-- View `A` of shape (N, H) as the rank-3 array `A[:, np.newaxis, :]`. -/
def Mat.unsqueeze1 (A : Mat) : Ten3 :=
  ⟨A.rows, 1, A.cols, fun n _ d => A.entry n d⟩

/-- Timestep slice `x[:, t, :]` of a (N, T, D) array, as a (N, D) matrix. -/
def Ten3.mslice (x : Ten3) (t : ℕ) : Mat :=
  ⟨x.dim0, x.dim2, fun n d => x.entry n t d⟩

/-- Column `c[:, j]` of a token matrix. -/
def TMat.col (c : TMat) (j : ℕ) : TVec :=
  ⟨c.rows, fun n => c.entry n j⟩

/-- Column assignment `c[:, j] = v` (in range, unchecked). -/
def TMat.setCol (c : TMat) (j : ℕ) (v : TVec) : TMat :=
  ⟨c.rows, c.cols, fun n k => if k = j then v.entry n else c.entry n k⟩

/-- `np.argmax` over the first `n` values of `f`: the first index attaining
the maximum (numpy returns the first occurrence). -/
def argmaxIdx (f : ℕ → ℚ) (n : ℕ) : ℕ :=
  (List.range n).foldl (fun best i => if f best < f i then i else best) 0

/-- Maximum of the first `n` values of `f` (the stabilising shift of the
softmax); meaningful for `n ≥ 1`. -/
def rowMax (f : ℕ → ℚ) (n : ℕ) : ℚ :=
  (List.range n).foldl (fun a i => max a (f i)) (f 0)

/-- A parameter or gradient tensor: the value stored under one key of the
`params` / `grads` dictionaries (rank 2 or rank 1). -/
inductive Tensor where
  | mat : Mat → Tensor
  | vec : Vec → Tensor

/-- The numpy shape tuple of a stored tensor. -/
def Tensor.shape : Tensor → List ℕ
  | .mat A => [A.rows, A.cols]
  | .vec v => [v.len]

/-- The scalar primitives the network uses: `np.tanh`, `np.exp`, `np.log`.
They are irrational-valued on rationals, so the embedding abstracts them. -/
structure NumOps where
  th : ℚ → ℚ
  ex : ℚ → ℚ
  lg : ℚ → ℚ

/-- A concrete instantiation of the scalar primitives, for closed evaluation. -/
def opsId : NumOps := ⟨fun q => q, fun q => q, fun q => q⟩

/-! ## Layer functions (from `cs231n.layers` / `cs231n.rnn_layers`, not in src) -/

/-- Modelled from the spec: `word_embedding_forward` (section 4.2) is missing
from the sources; given an integer index matrix (N, T) and table `W_embed`
(V, Wdim), it produces the (N, T, Wdim) row-gather. -/
def word_embedding_forward (idx : TMat) (W : Mat) : Ten3 :=
  ⟨idx.rows, idx.cols, W.cols, fun n t d => W.entry (idx.entry n t) d⟩

/-- Modelled from the spec: `word_embedding_backward` (section 4.2) is missing
from the sources; it scatter-adds `dout[n,t,:]` into row `idx[n,t]` of a
zero-initialized (V, Wdim) gradient, accumulating duplicates. -/
def word_embedding_backward (dout : Ten3) (idx : TMat) (W : Mat) : Mat :=
  ⟨W.rows, W.cols, fun v d =>
    ∑ n ∈ Finset.range idx.rows, ∑ t ∈ Finset.range idx.cols,
      if idx.entry n t = v then dout.entry n t d else 0⟩

/-- Modelled from the spec: `rnn_step_forward` (section 4.3) is missing from
the sources; one timestep `h_t = tanh(x·Wx + h_prev·Wh + b)`. -/
def rnn_step_forward (th : ℚ → ℚ) (x prev_h Wx Wh : Mat) (b : Vec) : Mat :=
  Mat.map th (Mat.addRowVec (Mat.add (x.matMul Wx) (prev_h.matMul Wh)) b)

/-- Modelled from the spec: the hidden-state chain of `rnn_forward` (section
4.4); `rnnHid ... t` is the hidden state after `t` cell applications, with
`rnnHid ... 0 = h0`. -/
def rnnHid (th : ℚ → ℚ) (x : Ten3) (h0 Wx Wh : Mat) (b : Vec) : ℕ → Mat
  | 0 => h0
  | t + 1 => rnn_step_forward th (x.mslice t) (rnnHid th x h0 Wx Wh b t) Wx Wh b

/-- Modelled from the spec: `rnn_forward` (section 4.4) is missing from the
sources; it unrolls the cell over `T = x.dim1` timesteps and stacks the hidden
states into an (N, T, H) array whose last dimension comes from `h0`. -/
def rnn_forward (th : ℚ → ℚ) (x : Ten3) (h0 Wx Wh : Mat) (b : Vec) : Ten3 :=
  ⟨x.dim0, x.dim1, h0.cols, fun n t d => (rnnHid th x h0 Wx Wh b (t + 1)).entry n d⟩

/-- Modelled from the spec: the tanh-derivative step of the cell backward
(section 4.3), `dz = dh_t * (1 - h_t^2)` elementwise. -/
def tanhBack (dht ht : Mat) : Mat :=
  ⟨dht.rows, dht.cols, fun i j => dht.entry i j * (1 - ht.entry i j ^ 2)⟩

/-- Modelled from the spec: the reverse-order hidden gradients of
`rnn_backward` (section 4.4).  With `T = dh.dim1`, `rnnDhTotal ... k` is the
total gradient arriving at hidden state `h_t` for `t = T-1-k`: the externally
supplied `dh[:, t, :]` plus, below the top step, the gradient flowing back
from step `t+1`. -/
def rnnDhTotal (th : ℚ → ℚ) (x : Ten3) (h0 Wx Wh : Mat) (b : Vec) (dh : Ten3) :
    ℕ → Mat
  | 0 => dh.mslice (dh.dim1 - 1)
  | k + 1 =>
    Mat.add (dh.mslice (dh.dim1 - 1 - (k + 1)))
      (Mat.matMul
        (tanhBack (rnnDhTotal th x h0 Wx Wh b dh k)
          (rnnHid th x h0 Wx Wh b (dh.dim1 - k)))
        Wh.transpose)

/-- Modelled from the spec: the per-timestep `dz` of `rnn_backward` (sections
4.3-4.4) at timestep `t`, namely `dz_t = dh_total_t * (1 - h_t^2)` where
`h_t = rnnHid (t+1)` is the cached output of step `t`. -/
def rnnDzAt (th : ℚ → ℚ) (x : Ten3) (h0 Wx Wh : Mat) (b : Vec) (dh : Ten3)
    (t : ℕ) : Mat :=
  tanhBack (rnnDhTotal th x h0 Wx Wh b dh (dh.dim1 - 1 - t))
    (rnnHid th x h0 Wx Wh b (t + 1))

/-- The tuple returned by `rnn_backward`. -/
structure RnnGrads where
  dx : Ten3
  dh0 : Mat
  dWx : Mat
  dWh : Mat
  db : Vec

/-- Modelled from the spec: `rnn_backward` (section 4.4) is missing from the
sources; timesteps are processed in strictly reverse order, `dWx`, `dWh`, `db`
are accumulated across all timesteps into zero-initialized arrays shaped like
the cached weights, `dx[:, t, :] = dz_t · Wx.T`, and the final `dh_prev` at
`t = 0` is returned as `dh0` (zeros when there are no timesteps). -/
def rnn_backward (th : ℚ → ℚ) (dh : Ten3) (x : Ten3) (h0 Wx Wh : Mat)
    (b : Vec) : RnnGrads where
  dx := ⟨dh.dim0, dh.dim1, Wx.rows, fun n t d =>
    (Mat.matMul (rnnDzAt th x h0 Wx Wh b dh t) Wx.transpose).entry n d⟩
  dh0 :=
    if dh.dim1 = 0 then ⟨h0.rows, h0.cols, fun _ _ => 0⟩
    else Mat.matMul (rnnDzAt th x h0 Wx Wh b dh 0) Wh.transpose
  dWx := ⟨Wx.rows, Wx.cols, fun i j =>
    ∑ t ∈ Finset.range dh.dim1,
      (Mat.matMul (x.mslice t).transpose (rnnDzAt th x h0 Wx Wh b dh t)).entry i j⟩
  dWh := ⟨Wh.rows, Wh.cols, fun i j =>
    ∑ t ∈ Finset.range dh.dim1,
      (Mat.matMul (rnnHid th x h0 Wx Wh b t).transpose
        (rnnDzAt th x h0 Wx Wh b dh t)).entry i j⟩
  db := ⟨dh.dim2, fun j =>
    ∑ t ∈ Finset.range dh.dim1, ((rnnDzAt th x h0 Wx Wh b dh t).colSum).entry j⟩

/-- Modelled from the spec: `temporal_affine_forward` (section 4.5) is missing
from the sources; the affine transform applied across the time axis. -/
def temporal_affine_forward (x : Ten3) (w : Mat) (b : Vec) : Ten3 :=
  ⟨x.dim0, x.dim1, w.cols, fun n t v =>
    (∑ k ∈ Finset.range x.dim2, x.entry n t k * w.entry k v) + b.entry v⟩

/-- The tuple returned by `temporal_affine_backward`. -/
structure TAffGrads where
  dx : Ten3
  dw : Mat
  db : Vec

/-- Modelled from the spec: `temporal_affine_backward` (sections 4.1 and 4.5)
is missing from the sources; `dx = dout·w.T`, `dw = x.T·dout` and
`db = sum(dout)` with the sums for `dw` and `db` ranging over both the batch
and the time axis. -/
def temporal_affine_backward (dout x : Ten3) (w : Mat) : TAffGrads where
  dx := ⟨dout.dim0, dout.dim1, w.rows, fun n t k =>
    ∑ v ∈ Finset.range dout.dim2, dout.entry n t v * w.entry k v⟩
  dw := ⟨x.dim2, dout.dim2, fun k v =>
    ∑ n ∈ Finset.range x.dim0, ∑ t ∈ Finset.range x.dim1,
      x.entry n t k * dout.entry n t v⟩
  db := ⟨dout.dim2, fun v =>
    ∑ n ∈ Finset.range dout.dim0, ∑ t ∈ Finset.range dout.dim1,
      dout.entry n t v⟩

/-- Modelled from the spec: the numerically stable softmax probabilities of
`temporal_softmax_loss` (section 4.6) at position (n, t). -/
def softmaxProb (ops : NumOps) (scores : Ten3) (n t v : ℕ) : ℚ :=
  let mx := rowMax (fun u => scores.entry n t u) scores.dim2
  ops.ex (scores.entry n t v - mx) /
    ∑ u ∈ Finset.range scores.dim2, ops.ex (scores.entry n t u - mx)

/-- Modelled from the spec: `temporal_softmax_loss` (section 4.6) is missing
from the sources; the loss sums masked per-position cross-entropies divided by
the batch size `N`, and the score gradient at a masked position is
`(softmax_probs - one_hot(target)) / N`, exactly zero at unmasked positions. -/
def temporal_softmax_loss (ops : NumOps) (scores : Ten3) (y : TMat)
    (mask : BMat) : ℚ × Ten3 :=
  (((∑ n ∈ Finset.range scores.dim0, ∑ t ∈ Finset.range scores.dim1,
      if mask.entry n t then -(ops.lg (softmaxProb ops scores n t (y.entry n t)))
      else 0) / (scores.dim0 : ℚ)),
   ⟨scores.dim0, scores.dim1, scores.dim2, fun n t v =>
      if mask.entry n t then
        (softmaxProb ops scores n t v - if y.entry n t = v then 1 else 0) /
          (scores.dim0 : ℚ)
      else 0⟩)

/-! ## The captioning model (`cs231n/classifiers/rnn.py`) -/

/-- The state built by `CaptioningRNN.__init__`: vocabulary bookkeeping plus
the parameter dictionary, whose eight entries are stored as named fields (the
source keeps them in an insertion-ordered dict; `Model.paramsList` below
recovers that view).  `startTok` / `endTok` mirror `word_to_idx.get(...,
None)`; numpy dtype casting is value-irrelevant here and is not modelled. -/
structure Model where
  cell_type : String
  word_to_idx : List (String × ℕ)
  vocab_size : ℕ
  hidden_dim : ℕ
  nullTok : ℕ
  startTok : Option ℕ
  endTok : Option ℕ
  W_embed : Mat
  W_proj : Mat
  b_proj : Vec
  Wx : Mat
  Wh : Mat
  b : Vec
  W_vocab : Mat
  b_vocab : Vec

/-- The parameter dictionary `self.params` in its insertion order. -/
def Model.paramsList (m : Model) : List (String × Tensor) :=
  [("W_embed", .mat m.W_embed), ("W_proj", .mat m.W_proj),
   ("b_proj", .vec m.b_proj), ("Wx", .mat m.Wx), ("Wh", .mat m.Wh),
   ("b", .vec m.b), ("W_vocab", .mat m.W_vocab), ("b_vocab", .vec m.b_vocab)]

/-- The two ways `CaptioningRNN.__init__` can raise: `ValueError` for an
unsupported cell type (checked first), `KeyError` when the vocabulary lacks
the `<NULL>` entry. -/
inductive InitErr where
  | invalidCellType : String → InitErr
  | keyError : InitErr
deriving DecidableEq

/-- What `CaptioningRNN.loss` can raise for a cell type other than `"rnn"`:
line 138 is `raise NotImplementedError('s not implemented' % self.cell_type)`,
but its format string contains no `%s`, so evaluating the `%` operator raises
`TypeError` (not all arguments converted during string formatting) while
building the message, and the `NotImplementedError` (which a well-formed
format string would have produced) is never constructed. -/
inductive LossErr where
  | typeError : LossErr
  | notImplemented : LossErr
deriving DecidableEq

/-- Whether a character list contains the `%` character: the deciding fact of
line 138 is that its format string `"s not implemented"` has no percent sign,
hence no conversion specifier at all. -/
def containsPercentChar : List Char → Bool
  | [] => false
  | ch :: cs => ch = '%' || containsPercentChar cs

/-- Modelled from Python semantics of the `%` operator as invoked on line 138
(and the identical, unreachable line 162): `fmt % arg` with a format string
holding no conversion specifier leaves the argument unconverted and raises
`TypeError`; only with a specifier would the `NotImplementedError` carrying
the substituted message be raised.  The argument's value is immaterial to
which exception occurs. -/
def line138Raise (fmt : String) (_arg : String) : LossErr :=
  if containsPercentChar fmt.data then .notImplemented else .typeError

/-- The ways `CaptioningRNN.sample` can raise: `TypeError` when `self._start`
is `None` (from `None * np.ones(...)`), `IndexError` on an out-of-range column
write `captions[:, 0] = ...` or on reading `captions[0]` of an empty batch,
and `ValueError` when `np.squeeze` collapses the word embedding (wordvec_dim
= 1) to a rank-1 array whose `np.dot` against the (1, H) `Wx` is shape
mismatched. -/
inductive SampleErr where
  | typeError : SampleErr
  | indexError : SampleErr
  | valueError : SampleErr
deriving DecidableEq

/-- `CaptioningRNN.__init__` (rnn.py lines 21-76).  The random draws of
`np.random.randn` are supplied by `randn` (indexed by draw site), and the
floating `np.sqrt` by `sqrtQ`; the cell-type check precedes every parameter
allocation, and the `<NULL>` lookup precedes it too (line 48 versus the
`params` assignments from line 53 on). -/
def CaptioningRNN.init (word_to_idx : List (String × ℕ))
    (input_dim wordvec_dim hidden_dim : ℕ) (cell_type : String)
    (randn : ℕ → ℕ → ℕ → ℚ) (sqrtQ : ℕ → ℚ) : Except InitErr Model :=
  if cell_type = "rnn" ∨ cell_type = "lstm" then
    match word_to_idx.lookup "<NULL>" with
    | none => .error .keyError
    | some nullIdx =>
      let vocab_size := word_to_idx.length
      let dim_mul : ℕ := if cell_type = "lstm" then 4 else 1
      .ok
        { cell_type := cell_type
          word_to_idx := word_to_idx
          vocab_size := vocab_size
          hidden_dim := hidden_dim
          nullTok := nullIdx
          startTok := word_to_idx.lookup "<START>"
          endTok := word_to_idx.lookup "<END>"
          W_embed := ⟨vocab_size, wordvec_dim, fun i j => randn 0 i j / 100⟩
          W_proj := ⟨input_dim, hidden_dim, fun i j => randn 1 i j / sqrtQ input_dim⟩
          b_proj := ⟨hidden_dim, fun _ => 0⟩
          Wx := ⟨wordvec_dim, dim_mul * hidden_dim, fun i j => randn 2 i j / sqrtQ wordvec_dim⟩
          Wh := ⟨hidden_dim, dim_mul * hidden_dim, fun i j => randn 3 i j / sqrtQ hidden_dim⟩
          b := ⟨dim_mul * hidden_dim, fun _ => 0⟩
          W_vocab := ⟨hidden_dim, vocab_size, fun i j => randn 4 i j / sqrtQ hidden_dim⟩
          b_vocab := ⟨vocab_size, fun _ => 0⟩ }
  else .error (.invalidCellType cell_type)

/-! ### `CaptioningRNN.loss` (rnn.py lines 79-178), factored into its
let-bound intermediates so the theorems can name them. -/

/-- `captions_in = captions[:, :-1]` (line 100). -/
def captionsIn (c : TMat) : TMat :=
  ⟨c.rows, c.cols - 1, fun n t => c.entry n t⟩

/-- `captions_out = captions[:, 1:]` (line 101). -/
def captionsOut (c : TMat) : TMat :=
  ⟨c.rows, c.cols - 1, fun n t => c.entry n (t + 1)⟩

/-- `mask = (captions_out != self._null)` (line 104). -/
def lossMask (m : Model) (c : TMat) : BMat :=
  ⟨(captionsOut c).rows, (captionsOut c).cols,
   fun n t => (captionsOut c).entry n t != m.nullTok⟩

/-- `h0 = np.dot(features, W_proj) + b_proj` (line 125). -/
def lossH0 (m : Model) (features : Mat) : Mat :=
  (features.matMul m.W_proj).addRowVec m.b_proj

/-- `x, _ = word_embedding_forward(captions_in, W_embed)` (line 129). -/
def lossEmbed (m : Model) (c : TMat) : Ten3 :=
  word_embedding_forward (captionsIn c) m.W_embed

/-- `h, _ = rnn_forward(x, h0, Wx, Wh, b)` (line 136, the `"rnn"` branch). -/
def lossHSeq (ops : NumOps) (m : Model) (features : Mat) (c : TMat) : Ten3 :=
  rnn_forward ops.th (lossEmbed m c) (lossH0 m features) m.Wx m.Wh m.b

/-- `scores_out, _ = temporal_affine_forward(h, W_vocab, b_vocab)` (line 143). -/
def lossScores (ops : NumOps) (m : Model) (features : Mat) (c : TMat) : Ten3 :=
  temporal_affine_forward (lossHSeq ops m features c) m.W_vocab m.b_vocab

/-- `loss, dscores = temporal_softmax_loss(scores_out, captions_out, mask)`
(line 147). -/
def lossSoftmax (ops : NumOps) (m : Model) (features : Mat) (c : TMat) :
    ℚ × Ten3 :=
  temporal_softmax_loss ops (lossScores ops m features c) (captionsOut c)
    (lossMask m c)

/-- `dh, dW_vocab, db_vocab = temporal_affine_backward(dscores, scores_cache)`
(line 157). -/
def lossTAffBack (ops : NumOps) (m : Model) (features : Mat) (c : TMat) :
    TAffGrads :=
  temporal_affine_backward (lossSoftmax ops m features c).2
    (lossHSeq ops m features c) m.W_vocab

/-- `dx, dh0, dWx, dWh, db = rnn_backward(dh, rnn_cache)` (line 160, the
`"rnn"` branch). -/
def lossRnnBack (ops : NumOps) (m : Model) (features : Mat) (c : TMat) :
    RnnGrads :=
  rnn_backward ops.th (lossTAffBack ops m features c).dx (lossEmbed m c)
    (lossH0 m features) m.Wx m.Wh m.b

/-- `dh0` as bound on line 160: the recurrent layer's initial-hidden-state
gradient. -/
def lossDh0 (ops : NumOps) (m : Model) (features : Mat) (c : TMat) : Mat :=
  (lossRnnBack ops m features c).dh0

/-- `dW_embed = word_embedding_backward(dx, word_embedding_cache)` (line 164). -/
def lossDWembed (ops : NumOps) (m : Model) (features : Mat) (c : TMat) : Mat :=
  word_embedding_backward (lossRnnBack ops m features c).dx (captionsIn c)
    m.W_embed

/-- The gradient dictionary assembled on lines 155-176: `dict.fromkeys(
self.params)` fixes the key set to that of `params` (in insertion order) and
every key is then assigned, with `db_proj = np.sum(dh0, axis=0)` (line 166)
and `dW_proj = np.dot(features.T, dh0)` (line 167). -/
def lossGrads (ops : NumOps) (m : Model) (features : Mat) (c : TMat) :
    List (String × Tensor) :=
  [("W_embed", .mat (lossDWembed ops m features c)),
   ("W_proj", .mat (Mat.matMul features.transpose (lossDh0 ops m features c))),
   ("b_proj", .vec (lossDh0 ops m features c).colSum),
   ("Wx", .mat (lossRnnBack ops m features c).dWx),
   ("Wh", .mat (lossRnnBack ops m features c).dWh),
   ("b", .vec (lossRnnBack ops m features c).db),
   ("W_vocab", .mat (lossTAffBack ops m features c).dw),
   ("b_vocab", .vec (lossTAffBack ops m features c).db)]

/-- `CaptioningRNN.loss` (lines 79-178): the whole forward/backward chain for
cell type `"rnn"`; otherwise line 138 attempts
`raise NotImplementedError('s not implemented' % self.cell_type)`, whose
malformed format string makes the `%` operator itself raise `TypeError`
during message formatting (the twin raise on line 162 is unreachable because
line 138 raises first). -/
def CaptioningRNN.loss (ops : NumOps) (m : Model) (features : Mat) (c : TMat) :
    Except LossErr (ℚ × List (String × Tensor)) :=
  if m.cell_type = "rnn" then
    .ok ((lossSoftmax ops m features c).1, lossGrads ops m features c)
  else .error (line138Raise "s not implemented" m.cell_type)

/-- `CaptioningRNN.loss` with the mutable state made explicit: the triple
`(self, features, captions)` is threaded through the call and returned next to
the result.  Every statement in the source body binds a fresh local; none
assigns to `self.params`, to an entry of it, to `features` or to `captions`,
and no in-place numpy operation appears, so the embedded state is passed
through unchanged. -/
def CaptioningRNN.lossMut (ops : NumOps) (m : Model) (features : Mat)
    (c : TMat) :
    Except LossErr ((ℚ × List (String × Tensor)) × (Model × Mat × TMat)) :=
  if m.cell_type = "rnn" then
    .ok (((lossSoftmax ops m features c).1, lossGrads ops m features c),
         (m, features, c))
  else .error (line138Raise "s not implemented" m.cell_type)

/-! ### `CaptioningRNN.sample` (rnn.py lines 181-242) -/

/-- Bounds-checked column assignment: numpy raises `IndexError` when the
column index is out of range, which is how `captions[:, 0] = output_word`
(line 227) fails when `max_length = 0`. -/
def TMat.setColChecked (c : TMat) (j : ℕ) (v : TVec) : Except SampleErr TMat :=
  if j < c.cols then .ok (TMat.setCol c j v) else .error .indexError

/-- The values of the word-embedding lookup followed by `np.squeeze`, as used
on lines 221/224 and 231/232, in the cases where the subsequent recurrent
step is well-shaped: row `n` is the embedding of token `capt[n]`.  For
`N = 1` numpy squeezes to a length-`W` vector (or a scalar when also
`W = 1`), and its products with `Wx` coincide entrywise with this (N, W)
row-gather; the fatal case — `wordvec_dim = 1` with `N ≠ 1`, where squeeze
yields a rank-1 length-`N` array misaligned with the (1, H) `Wx` — is
checked by `squeezeStepCheck` at the call sites in `sample`. -/
def wordEmbedRows (capt : TVec) (W : Mat) : Mat :=
  ⟨capt.len, W.cols, fun n d => W.entry (capt.entry n) d⟩

/-- The shape guard of `np.squeeze(word_embedding_forward(capt, W_embed))`
followed by `np.dot` with the (wordvec_dim, H) `Wx` inside the recurrent step
(lines 224 and 232): squeeze removes every size-1 axis, so with
`wordvec_dim = 1` the embedding of an `N`-token batch collapses to a rank-1
array of length `N`, and the dot raises `ValueError` unless `N = 1` (the
`N = 1` results — a length-`W` vector or a scalar — multiply out to the same
values as the (N, W) row-gather and broadcast back to a (1, H) hidden
state). -/
def squeezeStepCheck (capt : TVec) (W : Mat) : Except SampleErr Unit :=
  if W.cols = 1 ∧ capt.len ≠ 1 then .error .valueError else .ok ()

/-- Lines 225-226 (also 233-234): score the hidden state through the temporal
affine layer restricted to one timestep, then take the per-example arg-max
over the vocabulary axis and squeeze. -/
def stepScoresArgmax (m : Model) (h : Mat) : TVec :=
  let score := temporal_affine_forward (Mat.unsqueeze1 h) m.W_vocab m.b_vocab
  ⟨h.rows, fun n => argmaxIdx (fun v => score.entry n 0 v) score.dim2⟩

/-- The `for t in range(1, len(captions[0]))` loop of `sample` (lines
230-240), as a recursion on the remaining iteration count: at step `t` embed
the current tokens, run one recurrent step, arg-max the scores, write column
`t` (always in range: `1 ≤ t < max_length`) and read it back as the next
input.  The commented-out early-stop on `<END>` (lines 235-238) is absent, so
every iteration writes its column.  The loop's embedding squeeze (line 231)
sees the same shapes as the first step's — `capt` always has length
`captions.rows`, the batch size — so it errors exactly when the first step
(line 224) already errored and the loop was never entered; the loop therefore
carries no error channel. -/
def sampleLoop (ops : NumOps) (m : Model) (captions : TMat) (capt : TVec)
    (prev_h : Mat) (t : ℕ) : ℕ → TMat
  | 0 => captions
  | rest + 1 =>
    let word_embed := wordEmbedRows capt m.W_embed
    let next_h := rnn_step_forward ops.th word_embed prev_h m.Wx m.Wh m.b
    let output_word := stepScoresArgmax m next_h
    let captions2 := TMat.setCol captions t output_word
    sampleLoop ops m captions2 (TMat.col captions2 t) next_h (t + 1) rest

/-- `CaptioningRNN.sample` (lines 181-242).  `captions` starts as
`self._null * np.ones((N, max_length))`; the initial hidden state is the
affine projection of the features (line 217); the first input is the START
token (line 220, raising `TypeError` when `self._start` is `None`); the first
recurrent step (line 224) raises `ValueError` when the squeezed embedding is
misaligned with `Wx` (wordvec_dim = 1 with `N ≠ 1`); the first arg-max is
written to column 0 through the bounds check (line 227); computing the loop
range reads `captions[0]`, raising `IndexError` on an empty batch (line 230);
then the loop runs for `t = 1 .. max_length - 1`.  No cell-type check appears
anywhere in the body. -/
def CaptioningRNN.sample (ops : NumOps) (m : Model) (features : Mat)
    (max_length : ℕ) : Except SampleErr TMat :=
  let N := features.rows
  let captions : TMat := ⟨N, max_length, fun _ _ => m.nullTok⟩
  let h0 := (features.matMul m.W_proj).addRowVec m.b_proj
  match m.startTok with
  | none => .error .typeError
  | some start =>
    let capt : TVec := ⟨N, fun _ => start⟩
    match squeezeStepCheck capt m.W_embed with
    | .error e => .error e
    | .ok _ =>
      let word_embed := wordEmbedRows capt m.W_embed
      let next_h := rnn_step_forward ops.th word_embed h0 m.Wx m.Wh m.b
      let output_word := stepScoresArgmax m next_h
      match TMat.setColChecked captions 0 output_word with
      | .error e => .error e
      | .ok captions1 =>
        if captions1.rows = 0 then .error .indexError
        else .ok (sampleLoop ops m captions1 (TMat.col captions1 0) next_h 1
          (max_length - 1))

/-- Follows the spec's description of greedy decoding (section 4.8), used to
state what each emitted column is: `(sampleSeq ... t).1` is the hidden state
after recurrent step `t` and `(sampleSeq ... t).2` the arg-max tokens emitted
at step `t`; step 0 consumes the START token's embedding and the affine
projection of the features, and step `t+1` consumes the step-`t` tokens and
hidden state. -/
def sampleSeq (ops : NumOps) (m : Model) (features : Mat) (start : ℕ) :
    ℕ → Mat × TVec
  | 0 =>
    let h := rnn_step_forward ops.th
      (wordEmbedRows ⟨features.rows, fun _ => start⟩ m.W_embed)
      ((features.matMul m.W_proj).addRowVec m.b_proj) m.Wx m.Wh m.b
    (h, stepScoresArgmax m h)
  | t + 1 =>
    let p := sampleSeq ops m features start t
    let h := rnn_step_forward ops.th (wordEmbedRows p.2 m.W_embed) p.1
      m.Wx m.Wh m.b
    (h, stepScoresArgmax m h)

/-! ## Concrete instances for closed evaluation -/

/-- The spec's four-token example vocabulary (section 8). -/
def vocabFull : List (String × ℕ) :=
  [("<NULL>", 0), ("<START>", 1), ("<END>", 2), ("dog", 3)]

/-- A vocabulary with `<NULL>` and `<START>` but no `<END>`. -/
def vocabNoEnd : List (String × ℕ) := [("<NULL>", 0), ("<START>", 1)]

/-- A zero random source for the constructor. -/
def randZero : ℕ → ℕ → ℕ → ℚ := fun _ _ _ => 0

/-- A trivial square-root stand-in for the constructor. -/
def sqrtOne : ℕ → ℚ := fun _ => 1

/-- A concrete `"rnn"` model with D = W = H = 1 and V = 4. -/
def mRnn : Model where
  cell_type := "rnn"
  word_to_idx := vocabFull
  vocab_size := 4
  hidden_dim := 1
  nullTok := 0
  startTok := some 1
  endTok := some 2
  W_embed := ⟨4, 1, fun _ _ => 0⟩
  W_proj := ⟨1, 1, fun _ _ => 0⟩
  b_proj := ⟨1, fun _ => 0⟩
  Wx := ⟨1, 1, fun _ _ => 0⟩
  Wh := ⟨1, 1, fun _ _ => 0⟩
  b := ⟨1, fun _ => 0⟩
  W_vocab := ⟨1, 4, fun _ _ => 0⟩
  b_vocab := ⟨4, fun _ => 0⟩

/-- The same model tagged with cell type `"lstm"`. -/
def mLstm : Model := { mRnn with cell_type := "lstm" }

/-- A one-example feature batch of dimension 1. -/
def feats1 : Mat := ⟨1, 1, fun _ _ => 0⟩

/-- A two-example feature batch of dimension 1. -/
def feats2 : Mat := ⟨2, 1, fun _ _ => 0⟩

/-- A concrete (1, 2) caption batch. -/
def capts1 : TMat := ⟨1, 2, fun _ _ => 0⟩

/-- Fallback token matrix for extracting an `Except` payload. -/
def tmatDefault : TMat := ⟨0, 0, fun _ _ => 0⟩

/-- The matrix `sample` returns on `mRnn`, `feats1`, `max_length = 1`. -/
def sampleW3 : TMat :=
  (CaptioningRNN.sample opsId mRnn feats1 1).toOption.getD tmatDefault

/-- The matrix `sample` returns on `mRnn`, `feats1`, `max_length = 2`. -/
def sampleW4 : TMat :=
  (CaptioningRNN.sample opsId mRnn feats1 2).toOption.getD tmatDefault

/-- The matrix `sample` returns on the lstm-tagged model. -/
def sampleLstmW : TMat :=
  (CaptioningRNN.sample opsId mLstm feats1 2).toOption.getD tmatDefault

/-- The recorded END index of a construction result (`none` when construction
failed). -/
def initEndTok : Except InitErr Model → Option (Option ℕ)
  | .ok m => some m.endTok
  | .error _ => none

/-- Whether `sample` on a construction result runs to completion. -/
def initSampleOk (ops : NumOps) (e : Except InitErr Model) (f : Mat)
    (ml : ℕ) : Bool :=
  match e with
  | .ok m =>
    match CaptioningRNN.sample ops m f ml with
    | .ok _ => true
    | .error _ => false
  | .error _ => false

/-! ## Supporting lemmas -/

/-- The arg-max fold stays below the bound when the accumulator and every
candidate index do. -/
lemma argmax_foldl_lt (f : ℕ → ℚ) (n : ℕ) :
    ∀ (l : List ℕ) (acc : ℕ), acc < n → (∀ i ∈ l, i < n) →
      l.foldl (fun best i => if f best < f i then i else best) acc < n := by
  intro l
  induction l with
  | nil => intro acc hacc _; simpa using hacc
  | cons a l ih =>
    intro acc hacc hl
    simp only [List.foldl_cons]
    apply ih
    · split
      · exact hl a (List.mem_cons_self a l)
      · exact hacc
    · exact fun i hi => hl i (List.mem_cons_of_mem a hi)

/-- `np.argmax` over a nonempty axis returns an index inside the axis. -/
lemma argmaxIdx_lt (f : ℕ → ℚ) (n : ℕ) (h : 1 ≤ n) : argmaxIdx f n < n := by
  unfold argmaxIdx
  exact argmax_foldl_lt f n (List.range n) 0 h fun i hi => List.mem_range.mp hi

/-- The tokens emitted at any decode step are the arg-max of that step's
scores. -/
lemma sampleSeq_snd (ops : NumOps) (m : Model) (features : Mat) (start t : ℕ) :
    (sampleSeq ops m features start t).2 =
      stepScoresArgmax m (sampleSeq ops m features start t).1 := by
  cases t <;> rfl

/-- Every decode hidden state keeps the batch-size row count. -/
lemma sampleSeq_fst_rows (ops : NumOps) (m : Model) (features : Mat)
    (start : ℕ) : ∀ t, ((sampleSeq ops m features start t).1).rows = features.rows := by
  intro t
  induction t with
  | zero => rfl
  | succ t ih =>
    show ((sampleSeq ops m features start t).2).len = features.rows
    rw [sampleSeq_snd]
    exact ih

/-- Every emitted token vector has one entry per example. -/
lemma sampleSeq_snd_len (ops : NumOps) (m : Model) (features : Mat)
    (start t : ℕ) : ((sampleSeq ops m features start t).2).len = features.rows := by
  rw [sampleSeq_snd]
  exact sampleSeq_fst_rows ops m features start t

/-- Invariant of the generation loop: entering iteration `t` with the tokens
and hidden state of decode step `t - 1` and with columns `0 .. t-1` already
holding the emitted tokens, the loop fills every further column with the
arg-max tokens of its step and preserves the matrix shape. -/
lemma sampleLoop_spec (ops : NumOps) (m : Model) (features : Mat) (start : ℕ) :
    ∀ (rest t : ℕ) (captions : TMat) (capt : TVec) (prev_h : Mat),
      1 ≤ t →
      captions.rows = features.rows →
      (∀ n u, u < t → captions.entry n u =
        ((sampleSeq ops m features start u).2).entry n) →
      capt = (sampleSeq ops m features start (t - 1)).2 →
      prev_h = (sampleSeq ops m features start (t - 1)).1 →
      (sampleLoop ops m captions capt prev_h t rest).rows = captions.rows ∧
      (sampleLoop ops m captions capt prev_h t rest).cols = captions.cols ∧
      (∀ n u, u < t + rest →
        (sampleLoop ops m captions capt prev_h t rest).entry n u =
          ((sampleSeq ops m features start u).2).entry n) := by
  intro rest
  induction rest with
  | zero =>
    intro t captions capt prev_h _ _ hcols _ _
    exact ⟨rfl, rfl, fun n u hu => hcols n u (by omega)⟩
  | succ rest ih =>
    intro t captions capt prev_h ht hrows hcols hcapt hh
    obtain ⟨k, rfl⟩ : ∃ k, t = k + 1 := ⟨t - 1, by omega⟩
    rw [show k + 1 - 1 = k from rfl] at hcapt hh
    subst hcapt
    subst hh
    have hout : stepScoresArgmax m (sampleSeq ops m features start (k + 1)).1 =
        (sampleSeq ops m features start (k + 1)).2 := rfl
    have hstep : sampleLoop ops m captions (sampleSeq ops m features start k).2
        (sampleSeq ops m features start k).1 (k + 1) (rest + 1) =
      sampleLoop ops m
        (TMat.setCol captions (k + 1) (sampleSeq ops m features start (k + 1)).2)
        (TMat.col
          (TMat.setCol captions (k + 1) (sampleSeq ops m features start (k + 1)).2)
          (k + 1))
        (sampleSeq ops m features start (k + 1)).1 (k + 2) rest := rfl
    have hrows2 : (TMat.setCol captions (k + 1)
        (sampleSeq ops m features start (k + 1)).2).rows = features.rows := hrows
    have hcols2 : ∀ n u, u < k + 2 →
        (TMat.setCol captions (k + 1)
          (sampleSeq ops m features start (k + 1)).2).entry n u =
        ((sampleSeq ops m features start u).2).entry n := by
      intro n u hu
      by_cases huk : u = k + 1
      · subst huk
        simp [TMat.setCol]
      · have hlt : u < k + 1 := by omega
        simp only [TMat.setCol]
        rw [if_neg huk]
        exact hcols n u hlt
    have hcapt2 : TMat.col
        (TMat.setCol captions (k + 1) (sampleSeq ops m features start (k + 1)).2)
        (k + 1) = (sampleSeq ops m features start (k + 2 - 1)).2 := by
      ext n
      · show captions.rows = ((sampleSeq ops m features start (k + 1)).2).len
        rw [sampleSeq_snd_len]
        exact hrows
      · show (TMat.setCol captions (k + 1)
            (sampleSeq ops m features start (k + 1)).2).entry n (k + 1) =
          ((sampleSeq ops m features start (k + 1)).2).entry n
        simp [TMat.setCol]
    have hres := ih (k + 2)
      (TMat.setCol captions (k + 1) (sampleSeq ops m features start (k + 1)).2)
      (TMat.col
        (TMat.setCol captions (k + 1) (sampleSeq ops m features start (k + 1)).2)
        (k + 1))
      ((sampleSeq ops m features start (k + 1)).1)
      (by omega) hrows2 hcols2 hcapt2 rfl
    rw [hstep]
    refine ⟨hres.1.trans rfl, hres.2.1.trans rfl, fun n u hu => hres.2.2 n u (by omega)⟩

/-- The squeeze guard passes whenever the embedding table is wider than one
column or the batch has exactly one example. -/
lemma squeezeStepCheck_ok (capt : TVec) (W : Mat)
    (h : W.cols ≠ 1 ∨ capt.len = 1) : squeezeStepCheck capt W = .ok () := by
  unfold squeezeStepCheck
  rw [if_neg]
  rintro ⟨h1, h2⟩
  rcases h with h | h
  · exact h h1
  · exact h2 h

/-- With a one-column embedding table and a batch size other than one, the
first recurrent step of `sample` fails with the squeeze-induced shape
ValueError, whatever `max_length` is. -/
lemma sample_squeeze_error (ops : NumOps) (m : Model) (features : Mat)
    (ml s : ℕ) (hs : m.startTok = some s) (h1 : m.W_embed.cols = 1)
    (h2 : features.rows ≠ 1) :
    CaptioningRNN.sample ops m features ml = .error .valueError := by
  unfold CaptioningRNN.sample
  rw [hs]
  dsimp only
  rw [show squeezeStepCheck ⟨features.rows, fun _ => s⟩ m.W_embed =
      .error .valueError by
    unfold squeezeStepCheck
    rw [if_pos ⟨h1, h2⟩]]

/-- Characterization of `sample` on a valid call (START present, at least one
example, at least one step, shapes surviving the embedding squeeze): it
succeeds, the result is (N, max_length), and every column `u` holds the
step-`u` arg-max tokens of the greedy decode recurrence. -/
lemma sample_eq (ops : NumOps) (m : Model) (features : Mat) (ml s : ℕ)
    (hs : m.startTok = some s) (hr : 1 ≤ features.rows) (hml : 1 ≤ ml)
    (hsq : m.W_embed.cols ≠ 1 ∨ features.rows = 1) :
    ∃ c, CaptioningRNN.sample ops m features ml = .ok c ∧
      c.rows = features.rows ∧ c.cols = ml ∧
      ∀ n u, u < ml → c.entry n u = ((sampleSeq ops m features s u).2).entry n := by
  unfold CaptioningRNN.sample
  rw [hs]
  dsimp only
  rw [squeezeStepCheck_ok ⟨features.rows, fun _ => s⟩ m.W_embed hsq]
  dsimp only
  simp only [TMat.setColChecked]
  rw [if_pos (show (0 : ℕ) < ml by omega)]
  dsimp only
  rw [if_neg (show ¬(TMat.setCol ⟨features.rows, ml, fun _ _ => m.nullTok⟩ 0
    (stepScoresArgmax m (rnn_step_forward ops.th
      (wordEmbedRows ⟨features.rows, fun _ => s⟩ m.W_embed)
      ((features.matMul m.W_proj).addRowVec m.b_proj) m.Wx m.Wh m.b))).rows = 0
    by show ¬(features.rows = 0); omega)]
  refine ⟨_, rfl, ?_, ?_, ?_⟩
  all_goals
    have hres := sampleLoop_spec ops m features s (ml - 1) 1
      (TMat.setCol ⟨features.rows, ml, fun _ _ => m.nullTok⟩ 0
        (sampleSeq ops m features s 0).2)
      (TMat.col (TMat.setCol ⟨features.rows, ml, fun _ _ => m.nullTok⟩ 0
        (sampleSeq ops m features s 0).2) 0)
      ((sampleSeq ops m features s 0).1)
      (by omega) rfl
      (by
        intro n u hu
        have hu0 : u = 0 := by omega
        subst hu0
        simp [TMat.setCol])
      (by
        ext n
        · show features.rows = ((sampleSeq ops m features s 0).2).len
          rw [sampleSeq_snd_len]
        · show (TMat.setCol ⟨features.rows, ml, fun _ _ => m.nullTok⟩ 0
              ((sampleSeq ops m features s 0).2)).entry n 0 =
            ((sampleSeq ops m features s 0).2).entry n
          simp [TMat.setCol])
      rfl
  · exact hres.1
  · exact hres.2.1
  · intro n u hu
    exact hres.2.2 n u (by omega)

/-- The initial-hidden-state gradient has one column per hidden unit: in both
branches of `rnn_backward` its column count matches the projection width. -/
lemma lossDh0_cols (ops : NumOps) (m : Model) (features : Mat) (c : TMat)
    (hWh : m.Wh.rows = m.W_proj.cols) :
    (lossDh0 ops m features c).cols = m.W_proj.cols := by
  unfold lossDh0 lossRnnBack rnn_backward
  dsimp only
  split
  · rfl
  · exact hWh

/-! ## Claims -/

/-- C1: on every valid call, `loss` returns a gradient mapping whose key
sequence is exactly that of the parameter mapping
(W_embed, W_proj, b_proj, Wx, Wh, b, W_vocab, b_vocab) and whose tensor under
each key has the same shape as the matching parameter, for any valid
(N, T, D, W, H, V). -/
theorem C1_grads_keys_shapes (ops : NumOps) (m : Model) (features : Mat)
    (c : TMat) (N T D W H V : ℕ)
    (hct : m.cell_type = "rnn")
    (hWe1 : m.W_embed.rows = V) (hWe2 : m.W_embed.cols = W)
    (hWp1 : m.W_proj.rows = D) (hWp2 : m.W_proj.cols = H)
    (hbp : m.b_proj.len = H)
    (hWx1 : m.Wx.rows = W) (hWx2 : m.Wx.cols = H)
    (hWh1 : m.Wh.rows = H) (hWh2 : m.Wh.cols = H)
    (hb : m.b.len = H)
    (hWv1 : m.W_vocab.rows = H) (hWv2 : m.W_vocab.cols = V)
    (hbv : m.b_vocab.len = V)
    (hf1 : features.rows = N) (hf2 : features.cols = D)
    (hc1 : c.rows = N) (hc2 : c.cols = T) :
    CaptioningRNN.loss ops m features c =
      .ok ((lossSoftmax ops m features c).1, lossGrads ops m features c) ∧
    (lossGrads ops m features c).map Prod.fst = m.paramsList.map Prod.fst ∧
    (((lossGrads ops m features c).lookup "W_embed").map Tensor.shape = some [V, W] ∧
      ((m.paramsList.lookup "W_embed").map Tensor.shape = some [V, W])) ∧
    (((lossGrads ops m features c).lookup "W_proj").map Tensor.shape = some [D, H] ∧
      ((m.paramsList.lookup "W_proj").map Tensor.shape = some [D, H])) ∧
    (((lossGrads ops m features c).lookup "b_proj").map Tensor.shape = some [H] ∧
      ((m.paramsList.lookup "b_proj").map Tensor.shape = some [H])) ∧
    (((lossGrads ops m features c).lookup "Wx").map Tensor.shape = some [W, H] ∧
      ((m.paramsList.lookup "Wx").map Tensor.shape = some [W, H])) ∧
    (((lossGrads ops m features c).lookup "Wh").map Tensor.shape = some [H, H] ∧
      ((m.paramsList.lookup "Wh").map Tensor.shape = some [H, H])) ∧
    (((lossGrads ops m features c).lookup "b").map Tensor.shape = some [H] ∧
      ((m.paramsList.lookup "b").map Tensor.shape = some [H])) ∧
    (((lossGrads ops m features c).lookup "W_vocab").map Tensor.shape = some [H, V] ∧
      ((m.paramsList.lookup "W_vocab").map Tensor.shape = some [H, V])) ∧
    (((lossGrads ops m features c).lookup "b_vocab").map Tensor.shape = some [V] ∧
      ((m.paramsList.lookup "b_vocab").map Tensor.shape = some [V])) := by
  have hdh0 : (lossDh0 ops m features c).cols = m.W_proj.cols :=
    lossDh0_cols ops m features c (hWh1.trans hWp2.symm)
  refine ⟨by simp [CaptioningRNN.loss, hct], rfl, ⟨?_, ?_⟩, ⟨?_, ?_⟩, ⟨?_, ?_⟩,
    ⟨?_, ?_⟩, ⟨?_, ?_⟩, ⟨?_, ?_⟩, ⟨?_, ?_⟩, ⟨?_, ?_⟩⟩
  · show some [m.W_embed.rows, m.W_embed.cols] = some [V, W]
    rw [hWe1, hWe2]
  · show some [m.W_embed.rows, m.W_embed.cols] = some [V, W]
    rw [hWe1, hWe2]
  · show some [features.cols, (lossDh0 ops m features c).cols] = some [D, H]
    rw [hf2, hdh0, hWp2]
  · show some [m.W_proj.rows, m.W_proj.cols] = some [D, H]
    rw [hWp1, hWp2]
  · show some [(lossDh0 ops m features c).cols] = some [H]
    rw [hdh0, hWp2]
  · show some [m.b_proj.len] = some [H]
    rw [hbp]
  · show some [m.Wx.rows, m.Wx.cols] = some [W, H]
    rw [hWx1, hWx2]
  · show some [m.Wx.rows, m.Wx.cols] = some [W, H]
    rw [hWx1, hWx2]
  · show some [m.Wh.rows, m.Wh.cols] = some [H, H]
    rw [hWh1, hWh2]
  · show some [m.Wh.rows, m.Wh.cols] = some [H, H]
    rw [hWh1, hWh2]
  · show some [m.W_vocab.rows] = some [H]
    rw [hWv1]
  · show some [m.b.len] = some [H]
    rw [hb]
  · show some [m.W_proj.cols, m.W_vocab.cols] = some [H, V]
    rw [hWp2, hWv2]
  · show some [m.W_vocab.rows, m.W_vocab.cols] = some [H, V]
    rw [hWv1, hWv2]
  · show some [m.W_vocab.cols] = some [V]
    rw [hWv2]
  · show some [m.b_vocab.len] = some [V]
    rw [hbv]

/-- Witness for C1 at a concrete valid call: `mRnn` with (N, T, D, W, H, V) =
(1, 2, 1, 1, 1, 4). -/
theorem C1_witness :
    CaptioningRNN.loss opsId mRnn feats1 capts1 =
      .ok ((lossSoftmax opsId mRnn feats1 capts1).1,
        lossGrads opsId mRnn feats1 capts1) ∧
    (lossGrads opsId mRnn feats1 capts1).map Prod.fst =
      mRnn.paramsList.map Prod.fst ∧
    (((lossGrads opsId mRnn feats1 capts1).lookup "W_embed").map Tensor.shape = some [4, 1] ∧
      ((mRnn.paramsList.lookup "W_embed").map Tensor.shape = some [4, 1])) ∧
    (((lossGrads opsId mRnn feats1 capts1).lookup "W_proj").map Tensor.shape = some [1, 1] ∧
      ((mRnn.paramsList.lookup "W_proj").map Tensor.shape = some [1, 1])) ∧
    (((lossGrads opsId mRnn feats1 capts1).lookup "b_proj").map Tensor.shape = some [1] ∧
      ((mRnn.paramsList.lookup "b_proj").map Tensor.shape = some [1])) ∧
    (((lossGrads opsId mRnn feats1 capts1).lookup "Wx").map Tensor.shape = some [1, 1] ∧
      ((mRnn.paramsList.lookup "Wx").map Tensor.shape = some [1, 1])) ∧
    (((lossGrads opsId mRnn feats1 capts1).lookup "Wh").map Tensor.shape = some [1, 1] ∧
      ((mRnn.paramsList.lookup "Wh").map Tensor.shape = some [1, 1])) ∧
    (((lossGrads opsId mRnn feats1 capts1).lookup "b").map Tensor.shape = some [1] ∧
      ((mRnn.paramsList.lookup "b").map Tensor.shape = some [1])) ∧
    (((lossGrads opsId mRnn feats1 capts1).lookup "W_vocab").map Tensor.shape = some [1, 4] ∧
      ((mRnn.paramsList.lookup "W_vocab").map Tensor.shape = some [1, 4])) ∧
    (((lossGrads opsId mRnn feats1 capts1).lookup "b_vocab").map Tensor.shape = some [4] ∧
      ((mRnn.paramsList.lookup "b_vocab").map Tensor.shape = some [4])) :=
  C1_grads_keys_shapes opsId mRnn feats1 capts1 1 2 1 1 1 4 rfl rfl rfl rfl rfl
    rfl rfl rfl rfl rfl rfl rfl rfl rfl rfl rfl rfl rfl

/-- C2 counterexample: on a model constructed with cell type `"lstm"`,
neither entry point emits the not-implemented signal: `loss` fails with the
TypeError raised while `%`-formatting line 138's malformed message (its
format string has no `%s`), and `sample` does not fail at all — it returns
normally, there being no cell-type check anywhere in its body. -/
theorem C2_counterexample :
    CaptioningRNN.loss opsId mLstm feats1 capts1 = .error .typeError ∧
    (CaptioningRNN.sample opsId mLstm feats1 1).isOk = true := ⟨rfl, rfl⟩

/-- C2 amended: with cell type `"lstm"`, `loss` does fail, but with the
TypeError raised while `%`-formatting line 138's NotImplementedError message
(the format string `'s not implemented'` lacks `%s`), so the not-implemented
signal is never emitted; and `sample` performs no cell-type check at all and
silently runs the vanilla RNN step: on a valid call it returns normally and
every emitted column is the arg-max token of the vanilla RNN decode
recurrence `sampleSeq` (which is built from `rnn_step_forward`). -/
theorem C2_lstm_loss_raises_sample_falls_back (ops : NumOps) (m : Model)
    (features : Mat) (c cap : TMat) (ml s n u : ℕ)
    (hct : m.cell_type = "lstm") (hs : m.startTok = some s)
    (hr : 1 ≤ features.rows) (hml : 1 ≤ ml)
    (hcap : CaptioningRNN.sample ops m features ml = .ok cap) (hu : u < ml) :
    CaptioningRNN.loss ops m features c = .error .typeError ∧
    (CaptioningRNN.sample ops m features ml).isOk = true ∧
    cap.entry n u = ((sampleSeq ops m features s u).2).entry n := by
  have hsq : m.W_embed.cols ≠ 1 ∨ features.rows = 1 := by
    by_cases h1 : m.W_embed.cols = 1
    · right
      by_contra h2
      rw [sample_squeeze_error ops m features ml s hs h1 h2] at hcap
      exact Except.noConfusion hcap
    · exact Or.inl h1
  obtain ⟨c0, he, _, _, hent⟩ := sample_eq ops m features ml s hs hr hml hsq
  have hcc : cap = c0 := by
    rw [he] at hcap
    exact (Except.ok.injEq _ _).mp hcap.symm
  subst hcc
  refine ⟨?_, ?_, hent n u hu⟩
  · rw [CaptioningRNN.loss, hct]
    rfl
  · rw [he]
    rfl

/-- Witness for the amended C2 on the concrete lstm-tagged model. -/
theorem C2_witness :
    (mLstm.cell_type = "lstm" ∧ mLstm.startTok = some 1 ∧
      CaptioningRNN.sample opsId mLstm feats1 2 = .ok sampleLstmW) ∧
    (CaptioningRNN.loss opsId mLstm feats1 capts1 = .error .typeError ∧
      (CaptioningRNN.sample opsId mLstm feats1 2).isOk = true ∧
      sampleLstmW.entry 0 0 = ((sampleSeq opsId mLstm feats1 1 0).2).entry 0) :=
  ⟨⟨rfl, rfl, rfl⟩,
    C2_lstm_loss_raises_sample_falls_back opsId mLstm feats1 capts1 sampleLstmW
      2 1 0 0 rfl rfl (by decide) (by decide) rfl (by decide)⟩

/-- C5: `loss` splits the captions into `captions_in` (all but the last
column), `captions_out` (all but the first column), and builds the mask as
the boolean matrix, of the same shape as `captions_out`, that is true exactly
where `captions_out` differs from the NULL index. -/
theorem C5_captions_split_mask (m : Model) (c : TMat) :
    ((captionsIn c).rows = c.rows ∧ (captionsIn c).cols = c.cols - 1 ∧
      ∀ n t, (captionsIn c).entry n t = c.entry n t) ∧
    ((captionsOut c).rows = c.rows ∧ (captionsOut c).cols = c.cols - 1 ∧
      ∀ n t, (captionsOut c).entry n t = c.entry n (t + 1)) ∧
    ((lossMask m c).rows = (captionsOut c).rows ∧
      (lossMask m c).cols = (captionsOut c).cols ∧
      ∀ n t, ((lossMask m c).entry n t = true ↔
        (captionsOut c).entry n t ≠ m.nullTok)) := by
  refine ⟨⟨rfl, rfl, fun n t => rfl⟩, ⟨rfl, rfl, fun n t => rfl⟩,
    ⟨rfl, rfl, fun n t => ?_⟩⟩
  simp [lossMask]

/-- C6: the image-projection gradients stored in the returned mapping are
computed from the recurrent backward's initial-hidden-state gradient `dh0`:
`dW_proj = features.T · dh0` (entrywise the sum over the batch of
`features[n, i] * dh0[n, j]`) under key `W_proj`, and `db_proj` = the
column-wise sum of `dh0` over the batch axis under key `b_proj`. -/
theorem C6_projection_gradients (ops : NumOps) (m : Model) (features : Mat)
    (c : TMat) (hct : m.cell_type = "rnn") :
    CaptioningRNN.loss ops m features c =
      .ok ((lossSoftmax ops m features c).1, lossGrads ops m features c) ∧
    (lossGrads ops m features c).lookup "W_proj" =
      some (.mat (Mat.matMul features.transpose (lossDh0 ops m features c))) ∧
    (lossGrads ops m features c).lookup "b_proj" =
      some (.vec (lossDh0 ops m features c).colSum) ∧
    (∀ i j, (Mat.matMul features.transpose (lossDh0 ops m features c)).entry i j =
      ∑ n ∈ Finset.range features.rows,
        features.entry n i * (lossDh0 ops m features c).entry n j) ∧
    (∀ j, ((lossDh0 ops m features c).colSum).entry j =
      ∑ n ∈ Finset.range (lossDh0 ops m features c).rows,
        (lossDh0 ops m features c).entry n j) := by
  refine ⟨by simp [CaptioningRNN.loss, hct], rfl, rfl, fun i j => rfl, fun j => rfl⟩

/-- Witness for C6 on the concrete model `mRnn`. -/
theorem C6_witness :
    CaptioningRNN.loss opsId mRnn feats1 capts1 =
      .ok ((lossSoftmax opsId mRnn feats1 capts1).1,
        lossGrads opsId mRnn feats1 capts1) ∧
    (lossGrads opsId mRnn feats1 capts1).lookup "W_proj" =
      some (.mat (Mat.matMul feats1.transpose (lossDh0 opsId mRnn feats1 capts1))) ∧
    (lossGrads opsId mRnn feats1 capts1).lookup "b_proj" =
      some (.vec (lossDh0 opsId mRnn feats1 capts1).colSum) ∧
    (∀ i j, (Mat.matMul feats1.transpose (lossDh0 opsId mRnn feats1 capts1)).entry i j =
      ∑ n ∈ Finset.range feats1.rows,
        feats1.entry n i * (lossDh0 opsId mRnn feats1 capts1).entry n j) ∧
    (∀ j, ((lossDh0 opsId mRnn feats1 capts1).colSum).entry j =
      ∑ n ∈ Finset.range (lossDh0 opsId mRnn feats1 capts1).rows,
        (lossDh0 opsId mRnn feats1 capts1).entry n j) :=
  C6_projection_gradients opsId mRnn feats1 capts1 rfl

/-- C7: constructing with any cell type outside the registered set, such as
`"gru"`, fails with the invalid-cell-type error; the check precedes every
parameter allocation, so no model (and hence no parameter mapping) is ever
produced. -/
theorem C7_invalid_cell_type (word_to_idx : List (String × ℕ))
    (input_dim wordvec_dim hidden_dim : ℕ) (cell_type : String)
    (randn : ℕ → ℕ → ℕ → ℚ) (sqrtQ : ℕ → ℚ)
    (h1 : cell_type ≠ "rnn") (h2 : cell_type ≠ "lstm") :
    CaptioningRNN.init word_to_idx input_dim wordvec_dim hidden_dim cell_type
      randn sqrtQ = .error (.invalidCellType cell_type) := by
  rw [CaptioningRNN.init, if_neg]
  simp [h1, h2]

/-- Witness for C7: `cell_type = "gru"`. -/
theorem C7_witness :
    ("gru" ≠ "rnn" ∧ "gru" ≠ "lstm") ∧
    CaptioningRNN.init vocabFull 1 1 1 "gru" randZero sqrtOne =
      .error (.invalidCellType "gru") :=
  ⟨⟨by decide, by decide⟩,
    C7_invalid_cell_type vocabFull 1 1 1 "gru" randZero sqrtOne
      (by decide) (by decide)⟩

/-- C9: `loss` with the mutable state (the model, the features and the
captions) threaded explicitly returns that state unchanged next to exactly
the result of `loss`: the call reads but never writes its inputs or
`self.params`, and only builds a fresh gradient mapping. -/
theorem C9_loss_preserves_state (ops : NumOps) (m : Model) (features : Mat)
    (c : TMat) :
    CaptioningRNN.lossMut ops m features c =
      (CaptioningRNN.loss ops m features c).map (fun r => (r, (m, features, c))) := by
  by_cases h : m.cell_type = "rnn" <;>
    simp [CaptioningRNN.lossMut, CaptioningRNN.loss, h, Except.map]

/-- C10 counterexample: with wordvec_dim = 1 and a two-example batch, the
call with `max_length = 0` does not reach the column write: the first
recurrent step (line 224) raises the squeeze-induced shape ValueError, so
the failure the claim attributes to the out-of-bounds write is not what this
call raises. -/
theorem C10_counterexample :
    CaptioningRNN.sample opsId mRnn feats2 0 = .error .valueError := rfl

/-- C10 amended: a call with `max_length = 0` never returns an empty (N, 0)
matrix; provided the first recurrent step's shapes survive the embedding
squeeze (wordvec_dim ≠ 1, or N = 1), it fails with the out-of-bounds column
write `captions[:, 0] = output_word` (line 227).  (With wordvec_dim = 1 and
N ≠ 1 the call still fails, but already at the first step's ValueError.) -/
theorem C10_max_length_zero (ops : NumOps) (m : Model) (features : Mat)
    (s : ℕ) (hs : m.startTok = some s)
    (hsq : m.W_embed.cols ≠ 1 ∨ features.rows = 1) :
    CaptioningRNN.sample ops m features 0 = .error .indexError := by
  unfold CaptioningRNN.sample
  rw [hs]
  dsimp only
  rw [squeezeStepCheck_ok ⟨features.rows, fun _ => s⟩ m.W_embed hsq]
  rfl

/-- Witness for the amended C10 on the concrete model (N = 1). -/
theorem C10_witness :
    (mRnn.startTok = some 1 ∧ feats1.rows = 1) ∧
    CaptioningRNN.sample opsId mRnn feats1 0 = .error .indexError :=
  ⟨⟨rfl, rfl⟩, C10_max_length_zero opsId mRnn feats1 1 rfl (Or.inr rfl)⟩

/-- Arg-max tokens always lie inside the vocabulary range when the vocabulary
axis is nonempty. -/
lemma stepScoresArgmax_lt (m : Model) (h : Mat) (V : ℕ)
    (hV : m.W_vocab.cols = V) (hV1 : 1 ≤ V) (n : ℕ) :
    (stepScoresArgmax m h).entry n < V := by
  show argmaxIdx (fun v =>
      (temporal_affine_forward (Mat.unsqueeze1 h) m.W_vocab m.b_vocab).entry n 0 v)
    ((temporal_affine_forward (Mat.unsqueeze1 h) m.W_vocab m.b_vocab).dim2) < V
  rw [show (temporal_affine_forward (Mat.unsqueeze1 h) m.W_vocab m.b_vocab).dim2 = V
    from hV]
  exact argmaxIdx_lt _ V hV1

/-- C3 counterexample: with wordvec_dim = 1 and a two-example feature batch
(`max_length = 1`), `sample` does not return a (2, 1) matrix: `np.squeeze`
collapses the (2, 1, 1) embedding to a rank-1 array misaligned with the
(1, H) `Wx`, and the first recurrent step raises ValueError. -/
theorem C3_counterexample :
    CaptioningRNN.sample opsId mRnn feats2 1 = .error .valueError := rfl

/-- C3 amended (requires N ≥ 1, and wordvec_dim ≠ 1 unless N = 1: with an
empty batch the loop-range read `len(captions[0])` raises IndexError, and
with wordvec_dim = 1 and N ≥ 2 the squeeze collapse makes the first recurrent
step raise ValueError): on a valid call `sample` succeeds with an integer
matrix of shape exactly (N, max_length) whose entries lie in [0, V); the
START token is not part of the output, and with `max_length = 1` the single
column is the per-example arg-max of one recurrent step whose input is the
START token's embedding and whose initial hidden state is the affine
projection of the features. -/
theorem C3_sample_shape_range (ops : NumOps) (m : Model) (features : Mat)
    (ml V s n t : ℕ) (cap : TMat)
    (hs : m.startTok = some s) (hr : 1 ≤ features.rows) (hml : 1 ≤ ml)
    (hsq : m.W_embed.cols ≠ 1 ∨ features.rows = 1)
    (hV : m.W_vocab.cols = V) (hV1 : 1 ≤ V)
    (hcap : CaptioningRNN.sample ops m features ml = .ok cap) (ht : t < ml) :
    (CaptioningRNN.sample ops m features ml).isOk = true ∧
    cap.rows = features.rows ∧ cap.cols = ml ∧ cap.entry n t < V ∧
    (ml = 1 → cap.entry n 0 =
      (stepScoresArgmax m (rnn_step_forward ops.th
        (wordEmbedRows ⟨features.rows, fun _ => s⟩ m.W_embed)
        ((features.matMul m.W_proj).addRowVec m.b_proj)
        m.Wx m.Wh m.b)).entry n) := by
  obtain ⟨c0, he, hrows, hcols, hent⟩ := sample_eq ops m features ml s hs hr hml hsq
  have hcc : cap = c0 := by
    rw [he] at hcap
    exact (Except.ok.injEq _ _).mp hcap.symm
  subst hcc
  refine ⟨by rw [he]; rfl, hrows, hcols, ?_, ?_⟩
  · rw [hent n t ht, sampleSeq_snd]
    exact stepScoresArgmax_lt m _ V hV hV1 n
  · intro hml1
    exact hent n 0 (by omega)

/-- Witness for the amended C3 at `mRnn`, `feats1`, `max_length = 1`. -/
theorem C3_witness :
    (mRnn.startTok = some 1 ∧ feats1.rows = 1 ∧ mRnn.W_vocab.cols = 4 ∧
      CaptioningRNN.sample opsId mRnn feats1 1 = .ok sampleW3) ∧
    ((CaptioningRNN.sample opsId mRnn feats1 1).isOk = true ∧
      sampleW3.rows = feats1.rows ∧ sampleW3.cols = 1 ∧
      sampleW3.entry 0 0 < 4 ∧
      (1 = 1 → sampleW3.entry 0 0 =
        (stepScoresArgmax mRnn (rnn_step_forward opsId.th
          (wordEmbedRows ⟨feats1.rows, fun _ => 1⟩ mRnn.W_embed)
          ((feats1.matMul mRnn.W_proj).addRowVec mRnn.b_proj)
          mRnn.Wx mRnn.Wh mRnn.b)).entry 0)) :=
  ⟨⟨rfl, rfl, rfl, rfl⟩,
    C3_sample_shape_range opsId mRnn feats1 1 4 1 0 0 sampleW3 rfl (by decide)
      (by decide) (Or.inr rfl) rfl (by decide) rfl (by decide)⟩

/-- C4: generation never stops early on an emitted END token: every output
position `t < max_length` of every row equals the arg-max vocabulary index of
that step's scores — the step-`t` tokens of the autoregressive decode
recurrence — including positions after a step that emitted END, and no
position is replaced by the NULL token afterwards. -/
theorem C4_no_early_stop (ops : NumOps) (m : Model) (features : Mat)
    (ml s n t : ℕ) (cap : TMat)
    (hs : m.startTok = some s) (hr : 1 ≤ features.rows) (hml : 1 ≤ ml)
    (hcap : CaptioningRNN.sample ops m features ml = .ok cap) (ht : t < ml) :
    cap.entry n t = ((sampleSeq ops m features s t).2).entry n ∧
    ((sampleSeq ops m features s t).2).entry n =
      (stepScoresArgmax m (sampleSeq ops m features s t).1).entry n := by
  have hsq : m.W_embed.cols ≠ 1 ∨ features.rows = 1 := by
    by_cases h1 : m.W_embed.cols = 1
    · right
      by_contra h2
      rw [sample_squeeze_error ops m features ml s hs h1 h2] at hcap
      exact Except.noConfusion hcap
    · exact Or.inl h1
  obtain ⟨c0, he, _, _, hent⟩ := sample_eq ops m features ml s hs hr hml hsq
  have hcc : cap = c0 := by
    rw [he] at hcap
    exact (Except.ok.injEq _ _).mp hcap.symm
  subst hcc
  exact ⟨hent n t ht, by rw [sampleSeq_snd]⟩

/-- Witness for C4 at `mRnn`, `feats1`, `max_length = 2`, position (0, 1). -/
theorem C4_witness :
    (mRnn.startTok = some 1 ∧
      CaptioningRNN.sample opsId mRnn feats1 2 = .ok sampleW4) ∧
    (sampleW4.entry 0 1 = ((sampleSeq opsId mRnn feats1 1 1).2).entry 0 ∧
      ((sampleSeq opsId mRnn feats1 1 1).2).entry 0 =
        (stepScoresArgmax mRnn (sampleSeq opsId mRnn feats1 1 1).1).entry 0) :=
  ⟨⟨rfl, rfl⟩,
    C4_no_early_stop opsId mRnn feats1 2 1 0 1 sampleW4 rfl (by decide)
      (by decide) rfl (by decide)⟩

/-- `sample` on a successfully constructed model with START present runs to
completion on any valid call. -/
lemma initSampleOk_ok (ops : NumOps) (m : Model) (f : Mat) (ml s : ℕ)
    (hs : m.startTok = some s) (hr : 1 ≤ f.rows) (hml : 1 ≤ ml)
    (hsq : m.W_embed.cols ≠ 1 ∨ f.rows = 1) :
    initSampleOk ops (.ok m) f ml = true := by
  obtain ⟨c0, hsamp, _⟩ := sample_eq ops m f ml s hs hr hml hsq
  unfold initSampleOk
  dsimp only
  rw [hsamp]

/-- C8 counterexample: for the vocabulary without `<END>`, construction with
wordvec_dim = 1 succeeds (END recorded absent), yet `sample` on a
two-example batch does not run to completion: the squeeze collapse makes the
first recurrent step raise ValueError — a crash unrelated to the missing END
token. -/
theorem C8_counterexample :
    initEndTok (CaptioningRNN.init vocabNoEnd 1 1 1 "rnn" randZero sqrtOne) =
      some none ∧
    initSampleOk opsId (CaptioningRNN.init vocabNoEnd 1 1 1 "rnn" randZero
      sqrtOne) feats2 1 = false := ⟨rfl, rfl⟩

/-- C8 amended: with a vocabulary containing `<NULL>` and `<START>` but no
`<END>`, construction succeeds with the END index recorded as absent
(`None`), and `sample` on the constructed model runs to completion without
raising on every valid call whose shapes survive the embedding squeeze
(wordvec_dim ≠ 1, or N = 1): the absence of END degrades generation but does
not crash it.  (With wordvec_dim = 1 and N ≥ 2 `sample` does crash, but with
the squeeze ValueError, independent of whether END is present.) -/
theorem C8_missing_end_token (v : List (String × ℕ)) (D W H : ℕ)
    (randn : ℕ → ℕ → ℕ → ℚ) (sqrtQ : ℕ → ℚ) (n0 s0 : ℕ) (ops : NumOps)
    (f : Mat) (ml : ℕ)
    (hn : v.lookup "<NULL>" = some n0) (hs : v.lookup "<START>" = some s0)
    (he : v.lookup "<END>" = none) (hr : 1 ≤ f.rows) (hml : 1 ≤ ml)
    (hW : W ≠ 1 ∨ f.rows = 1) :
    initEndTok (CaptioningRNN.init v D W H "rnn" randn sqrtQ) = some none ∧
    initSampleOk ops (CaptioningRNN.init v D W H "rnn" randn sqrtQ) f ml = true := by
  have hinit : CaptioningRNN.init v D W H "rnn" randn sqrtQ = .ok
      { cell_type := "rnn"
        word_to_idx := v
        vocab_size := v.length
        hidden_dim := H
        nullTok := n0
        startTok := v.lookup "<START>"
        endTok := v.lookup "<END>"
        W_embed := ⟨v.length, W, fun i j => randn 0 i j / 100⟩
        W_proj := ⟨D, H, fun i j => randn 1 i j / sqrtQ D⟩
        b_proj := ⟨H, fun _ => 0⟩
        Wx := ⟨W, 1 * H, fun i j => randn 2 i j / sqrtQ W⟩
        Wh := ⟨H, 1 * H, fun i j => randn 3 i j / sqrtQ H⟩
        b := ⟨1 * H, fun _ => 0⟩
        W_vocab := ⟨H, v.length, fun i j => randn 4 i j / sqrtQ H⟩
        b_vocab := ⟨v.length, fun _ => 0⟩ } := by
    unfold CaptioningRNN.init
    rw [hn]
    rfl
  rw [hinit]
  constructor
  · show some (v.lookup "<END>") = some none
    rw [he]
  · exact initSampleOk_ok ops _ f ml s0 hs hr hml hW

/-- Witness for the amended C8 on the two-token vocabulary without `<END>`
(N = 1). -/
theorem C8_witness :
    (vocabNoEnd.lookup "<NULL>" = some 0 ∧
      vocabNoEnd.lookup "<START>" = some 1 ∧
      vocabNoEnd.lookup "<END>" = none) ∧
    (initEndTok (CaptioningRNN.init vocabNoEnd 1 1 1 "rnn" randZero sqrtOne) =
        some none ∧
      initSampleOk opsId (CaptioningRNN.init vocabNoEnd 1 1 1 "rnn" randZero
        sqrtOne) feats1 1 = true) :=
  ⟨⟨rfl, rfl, rfl⟩,
    C8_missing_end_token vocabNoEnd 1 1 1 randZero sqrtOne 0 1 opsId feats1 1
      rfl rfl rfl (by decide) (by decide) (Or.inr rfl)⟩
